import Mathlib

/-!
Shallow embedding of `src/app.py`, a Streamlit survey that shows media
stimuli for a fixed exposure and collects ratings.  The script reruns
top-to-bottom on every interaction; we model one script run as a step
function on the explicit session state, taking the current widget values
and environment readings (clock, randomness, directory scan) as input.
Side-effecting calls (list append, sheet append, warnings/errors) are
reported as an event trace in program order.
-/

namespace SurveyApp

/-! ### Configuration constants (from the CONFIG section of app.py) -/

def STUDY_ID : String := "two_second_multimode_nomf_v2"

/-- Target exposure duration in seconds (`SHOW_SECONDS = 2.0`). -/
def SHOW_SECONDS : ℚ := 2

/-- Cap on the number of stimuli per participant (`MAX_TRIALS = 30`). -/
def MAX_TRIALS : Nat := 30

/-- Minimum characters required in text responses (`MIN_TEXT_CHARS = 1`). -/
def MIN_TEXT_CHARS : Nat := 1

def DEFAULT_MODE : String := "img_sliders"

def ALL_MODES : List String := ["img_sliders", "img_text", "vid_sliders", "vid_text"]

/-! ### Small utilities from app.py -/

/-- `get_mode_from_query`: read the mode from the query parameters
(`none` models an absent parameter, in which case Python's
`params.get("mode", [DEFAULT_MODE])` yields the default), then validate
against `ALL_MODES`, falling back to `DEFAULT_MODE`. -/
def get_mode_from_query (q : Option String) : String :=
  let mode := q.getD DEFAULT_MODE
  if mode ∈ ALL_MODES then mode else DEFAULT_MODE

/-- `generate_participant_id`: `uuid.uuid4().hex[:8].upper()`.  The fresh
uuid hex string is an input; the function slices the first 8 characters
and uppercases them. -/
def generate_participant_id (uuidHex : String) : String :=
  String.mk ((uuidHex.data.take 8).map Char.toUpper)

/-- Python's `"sliders" in mode` substring test. -/
def mode_has_sliders (mode : String) : Bool :=
  decide (List.IsInfix "sliders".data mode.data)

/-- Python's `mode.startswith("img")`. -/
def mode_is_img (mode : String) : Bool :=
  "img".data.isPrefixOf mode.data

/-- Python's `str.strip()`: remove leading and trailing whitespace. -/
def pyStrip (s : String) : String :=
  String.mk (((s.data.dropWhile Char.isWhitespace).reverse.dropWhile
    Char.isWhitespace).reverse)

/-! ### Decimal printing of indices (Python `str(idx)` on a nonnegative int)
and the order-sequence string. -/

/-- The decimal digit character for `d`, as produced by Python `str`. -/
def digitChar (d : Nat) : Char :=
  match d with
  | 0 => '0' | 1 => '1' | 2 => '2' | 3 => '3' | 4 => '4'
  | 5 => '5' | 6 => '6' | 7 => '7' | 8 => '8' | 9 => '9'
  | _ => '*'

/-- The character list of Python `str(n)` for a natural number `n`:
its decimal digits, most significant first. -/
def natStrChars (n : Nat) : List Char :=
  if n = 0 then ['0'] else ((Nat.digits 10 n).reverse.map digitChar)

/-- `",".join(str(idx) for idx in order)` (app.py line 432), building the
`order_sequence` string stored in the session and in every record. -/
def order_sequence_encode (order : List Nat) : String :=
  String.mk (List.intercalate [','] (order.map natStrChars))

/-- Parse one decimal digit character back to its value. -/
def parseDigit (c : Char) : Nat := c.toNat - 48

/-- Parse a list of decimal digit characters, most significant first. -/
def parseNatChars (cs : List Char) : Nat :=
  cs.foldl (fun a c => a * 10 + parseDigit c) 0

/-- Modelled from the spec: the repository only encodes the order
sequence (app.py line 432); no decoder exists in the source.  The spec's
round-trip property presumes the evident decoder for a comma-separated
list of indices: split the string on commas and parse each piece as a
decimal natural number, with the empty string decoding to the empty
list. -/
def order_sequence_decode (s : String) : List Nat :=
  if s.data = [] then [] else (s.data.splitOn ',').map parseNatChars

/-! ### Randomized order (`randomize_order`, using `random.shuffle`) -/

/-- Swap the elements of `l` at positions `i` and `j`
(Python `x[i], x[j] = x[j], x[i]`). -/
def listSwap (l : List Nat) (i j : Nat) : List Nat :=
  (l.set i (l.getD j 0)).set j (l.getD i 0)

/-- The Fisher–Yates loop of CPython's `random.shuffle`:
`for i in reversed(range(1, len(x))): j = randbelow(i+1); swap x[i] x[j]`.
`rand i` models the random source; `% (i+1)` records that `randbelow`
returns a value in `[0, i+1)`. -/
def shuffleStep (rand : Nat → Nat) : Nat → List Nat → List Nat
  | 0, l => l
  | i + 1, l => shuffleStep rand i (listSwap l (i + 1) (rand (i + 1) % (i + 2)))

/-- `random.shuffle(x)` on a list `x`. -/
def shuffle (l : List Nat) (rand : Nat → Nat) : List Nat :=
  shuffleStep rand (l.length - 1) l

/-- `randomize_order(n)`: shuffle the identity permutation
`list(range(n))`. -/
def randomize_order (n : Nat) (rand : Nat → Nat) : List Nat :=
  shuffle (List.range n) rand

/-- The trial plan built in the demographics handler: shuffle the full
pool and truncate to `min n cap` (`selected_indices = full_order[:n_trials]`,
app.py lines 422-427; the cap is `MAX_TRIALS` in the source). -/
def trial_plan (n cap : Nat) (rand : Nat → Nat) : List Nat :=
  (randomize_order n rand).take (min n cap)

/-! ### Records -/

/-- A spreadsheet cell value: the eight rating columns hold an integer in
slider modes and the empty string in text modes. -/
inductive Cell
  | num (v : Nat)
  | str (s : String)
deriving DecidableEq, Repr

/-- The eight emotion slider values submitted in a slider mode, keyed by
the `EMOTIONS` labels. -/
structure Sliders where
  angry : Nat
  happy : Nat
  sad : Nat
  scared : Nat
  surprised : Nat
  neutral : Nat
  disgusted : Nat
  contempt : Nat
deriving DecidableEq, Repr

/-- The dictionary returned by `ratings_to_dict`. -/
structure RatingsDict where
  rating_angry : Cell
  rating_happy : Cell
  rating_sad : Cell
  rating_scared : Cell
  rating_surprised : Cell
  rating_neutral : Cell
  rating_disgusted : Cell
  rating_contempt : Cell
deriving DecidableEq, Repr

/-- `ratings_to_dict(sliders)` (app.py lines 137-147). -/
def ratings_to_dict (sliders : Sliders) : RatingsDict where
  rating_angry := .num sliders.angry
  rating_happy := .num sliders.happy
  rating_sad := .num sliders.sad
  rating_scared := .num sliders.scared
  rating_surprised := .num sliders.surprised
  rating_neutral := .num sliders.neutral
  rating_disgusted := .num sliders.disgusted
  rating_contempt := .num sliders.contempt

/-- The all-empty rating fields written by the text branch
(app.py lines 554-555). -/
def blankRatings : RatingsDict where
  rating_angry := .str ""
  rating_happy := .str ""
  rating_sad := .str ""
  rating_scared := .str ""
  rating_surprised := .str ""
  rating_neutral := .str ""
  rating_disgusted := .str ""
  rating_contempt := .str ""

/-- The `extra` dictionary merged into the base row by the rate handlers. -/
structure Extra where
  ratings : RatingsDict
  result_estimate : String
  free_text : String
deriving DecidableEq, Repr

/-- One output row, matching the sheet column schema. -/
structure Row where
  study_id : String
  mode : String
  participant_id : String
  consented : Bool
  consent_timestamp_iso : String
  name : String
  age : Int
  gender : String
  nationality : String
  trial_index : Nat
  order_index : Nat
  total_trials : Nat
  n_completed : Nat
  order_sequence : String
  media_kind : String
  media_file : String
  ratings : RatingsDict
  result_estimate : String
  free_text : String
  response_timestamp_iso : String
deriving DecidableEq, Repr

/-! ### Session state (the `st.session_state` fields set by `init_state`) -/

inductive Phase
  | consent
  | demographics
  | show
  | rate
  | done
deriving DecidableEq, Repr

structure SessionState where
  phase : Phase
  study_id : String
  mode : String
  consented : Bool
  consent_timestamp_iso : String
  participant_id : String
  name : String
  age : Int
  gender : String
  nationality : String
  media_list : List String
  idx : Nat
  order : List Nat
  total_trials : Nat
  order_sequence : String
  show_started_at : Option ℚ
  responses : List Row
  trial_submitted : Bool
  current_trial : Option Nat
deriving DecidableEq, Repr

/-- `init_state(initial_mode)`: the defaults installed on a fresh session. -/
def initState (initialMode : String) : SessionState where
  phase := .consent
  study_id := STUDY_ID
  mode := initialMode
  consented := false
  consent_timestamp_iso := ""
  participant_id := ""
  name := ""
  age := 0
  gender := ""
  nationality := ""
  media_list := []
  idx := 0
  order := []
  total_trials := 0
  order_sequence := ""
  show_started_at := none
  responses := []
  trial_submitted := false
  current_trial := none

/-- `total_trials or len(order)`: Python `or` falls through on a falsy
(zero) left operand. -/
def effTotal (ss : SessionState) : Nat :=
  if ss.total_trials = 0 then ss.order.length else ss.total_trials

/-! ### Events: side effects in program order -/

inductive Event
  | set_guard
  | append_local (r : Row)
  | append_sheet (r : Row)
  | warn_duplicate
  | error_msg
deriving DecidableEq, Repr

def isAppend : Event → Bool
  | .append_local _ => true
  | .append_sheet _ => true
  | _ => false

/-- `true` when no append event occurs before the first `set_guard`:
every attempted write is preceded by setting the submission guard. -/
def guardFirst : List Event → Bool
  | [] => true
  | .set_guard :: _ => true
  | e :: rest => !isAppend e && guardFirst rest

/-! ### `record_and_next` (app.py lines 276-315) -/

def record_and_next (ss : SessionState) (extra : Extra) (ts : String) :
    SessionState × Row :=
  let total := effTotal ss
  let i := ss.idx
  let order_index := i + 1
  let media_idx := ss.order.getD i 0
  let media_path := ss.media_list.getD media_idx ""
  let row : Row :=
    { study_id := ss.study_id
      mode := ss.mode
      participant_id := ss.participant_id
      consented := ss.consented
      consent_timestamp_iso := ss.consent_timestamp_iso
      name := ss.name
      age := ss.age
      gender := ss.gender
      nationality := ss.nationality
      trial_index := media_idx + 1
      order_index := order_index
      total_trials := total
      n_completed := order_index
      order_sequence := ss.order_sequence
      media_kind := if mode_is_img ss.mode then "image" else "video"
      media_file := media_path
      ratings := extra.ratings
      result_estimate := extra.result_estimate
      free_text := extra.free_text
      response_timestamp_iso := ts }
  ({ ss with
      responses := ss.responses ++ [row]
      idx := i + 1
      show_started_at := none
      trial_submitted := false
      current_trial := none
      phase := if i + 1 ≥ total then .done else .show },
   row)

/-! ### Phase handlers -/

/-- One run of the consent branch.  `reset` is the reset button (which
clears the whole session state and reruns, re-initializing from the
query-parameter mode); otherwise the mode selectbox stores the selected
mode, a participant id is generated when none is present, and the
Continue button (guarded by the consent checkbox) finalizes the id and
advances to demographics. -/
def consentPhase (ss : SessionState) (reset : Bool) (queryMode : Option String)
    (selectedMode : String) (uuidHex : String) (agreed : Bool)
    (pidInput : String) (continueClicked : Bool) (ts : String) :
    SessionState × List Event :=
  if reset then (initState (get_mode_from_query queryMode), [])
  else
    let ss := { ss with mode := selectedMode }
    let ss :=
      if ss.participant_id = "" then
        { ss with participant_id := generate_participant_id uuidHex }
      else ss
    if !continueClicked then (ss, [])
    else if !agreed then (ss, [.error_msg])
    else
      let final_pid := pyStrip pidInput
      let ss :=
        if final_pid ≠ "" then { ss with participant_id := final_pid } else ss
      ({ ss with
          consented := true
          consent_timestamp_iso := ts
          phase := .demographics }, [])

/-- One run of the demographics branch (app.py lines 380-441).
`mediaFiles` is the (sorted) result of `load_media_files` for the
current mode's directory and extensions. -/
def demographicsPhase (ss : SessionState) (nameInput : String) (ageInput : Int)
    (genderInput : String) (nationalityInput : String) (submitted : Bool)
    (mediaFiles : List String) (rand : Nat → Nat) :
    SessionState × List Event :=
  if !submitted then (ss, [])
  else
    let ss := { ss with
      name := pyStrip nameInput
      age := ageInput
      gender := pyStrip genderInput
      nationality := pyStrip nationalityInput }
    if ss.name ≠ "" ∧ ss.gender ≠ "" ∧ ss.nationality ≠ "" ∧ ss.age > 0 then
      if mediaFiles = [] then (ss, [.error_msg])
      else
        let full_n := mediaFiles.length
        let full_order := randomize_order full_n rand
        let n_trials := min full_n MAX_TRIALS
        let selected_indices := full_order.take n_trials
        ({ ss with
            media_list := mediaFiles
            order := selected_indices
            total_trials := n_trials
            order_sequence := order_sequence_encode selected_indices
            idx := 0
            show_started_at := none
            current_trial := none
            trial_submitted := false
            phase := .show }, [])
    else (ss, [.error_msg])

/-- One run of the show branch (app.py lines 444-474).  `t1` is the
clock reading used to stamp a fresh `show_started_at`; `t2` the reading
used to compute `elapsed`. -/
def showPhase (ss : SessionState) (t1 t2 : ℚ) : SessionState × List Event :=
  let total := effTotal ss
  if total = 0 then (ss, [.error_msg])
  else
    let ss :=
      if ss.show_started_at = none then { ss with show_started_at := some t1 }
      else ss
    let started := ss.show_started_at.getD t1
    let elapsed := t2 - started
    let remaining := SHOW_SECONDS - elapsed
    if remaining > 0 then (ss, [])
    else ({ ss with phase := .rate }, [])

/-- The guard normalization at the top of the rate branch (app.py lines
486-488): arriving at a new trial clears the submission flag. -/
def rateEntry (ss : SessionState) : SessionState :=
  if ss.current_trial ≠ some ss.idx then
    { ss with current_trial := some ss.idx, trial_submitted := false }
  else ss

/-- One run of the rate branch (app.py lines 477-560): guard
normalization on entry, then the slider or text form depending on the
mode. -/
def ratePhase (ss : SessionState) (submitted : Bool) (sliders : Sliders)
    (result : Option String) (text : String) (ts : String) :
    SessionState × List Event :=
  let ss := rateEntry ss
  if mode_has_sliders ss.mode then
    if !submitted then (ss, [])
    else if ss.trial_submitted then (ss, [.warn_duplicate])
    else
      match result with
      | none => (ss, [.error_msg])
      | some r =>
        let ss := { ss with trial_submitted := true }
        let extra : Extra :=
          { ratings := ratings_to_dict sliders
            result_estimate := r
            free_text := "" }
        let next := record_and_next ss extra ts
        (next.1, [.set_guard, .append_local next.2, .append_sheet next.2])
  else
    if !submitted then (ss, [])
    else if ss.trial_submitted then (ss, [.warn_duplicate])
    else
      match result with
      | none => (ss, [.error_msg])
      | some r =>
        if (pyStrip text).length < MIN_TEXT_CHARS then (ss, [.error_msg])
        else
          let ss := { ss with trial_submitted := true }
          let extra : Extra :=
            { ratings := blankRatings
              result_estimate := r
              free_text := pyStrip text }
          let next := record_and_next ss extra ts
          (next.1, [.set_guard, .append_local next.2, .append_sheet next.2])

/-! ### The whole-script step -/

/-- The widget values and environment readings available to one script
run.  Streamlit reruns the whole script; only the branch matching the
current phase consumes its inputs. -/
structure Input where
  queryMode : Option String
  resetClicked : Bool
  selectedMode : String
  uuidHex : String
  agreed : Bool
  pidInput : String
  continueClicked : Bool
  nameInput : String
  ageInput : Int
  genderInput : String
  nationalityInput : String
  demoSubmit : Bool
  mediaFiles : List String
  rand : Nat → Nat
  t1 : ℚ
  t2 : ℚ
  rateSubmit : Bool
  sliders : Sliders
  result : Option String
  textInput : String
  ts : String

/-- One full script run: dispatch to the branch for the current phase. -/
def step (ss : SessionState) (inp : Input) : SessionState × List Event :=
  match ss.phase with
  | .consent =>
      consentPhase ss inp.resetClicked inp.queryMode inp.selectedMode
        inp.uuidHex inp.agreed inp.pidInput inp.continueClicked inp.ts
  | .demographics =>
      demographicsPhase ss inp.nameInput inp.ageInput inp.genderInput
        inp.nationalityInput inp.demoSubmit inp.mediaFiles inp.rand
  | .show => showPhase ss inp.t1 inp.t2
  | .rate => ratePhase ss inp.rateSubmit inp.sliders inp.result inp.textInput inp.ts
  | .done => (ss, [])

/-! ### Concrete sample inputs and states, used to instantiate the
universally quantified theorems. -/

/-- A baseline input: every widget holds a benign concrete value. -/
def baseInput : Input where
  queryMode := none
  resetClicked := false
  selectedMode := "img_sliders"
  uuidHex := "0123456789abcdef0123456789abcdef"
  agreed := true
  pidInput := "  "
  continueClicked := true
  nameInput := "Ada"
  ageInput := 30
  genderInput := "Female"
  nationalityInput := "British"
  demoSubmit := true
  mediaFiles := ["a.png", "b.png", "c.png"]
  rand := fun _ => 0
  t1 := 0
  t2 := 0
  rateSubmit := true
  sliders := ⟨1, 2, 3, 4, 5, 6, 7, 8⟩
  result := some "Won"
  textInput := " calm "
  ts := "2026-01-01T00:00:00Z"

/-- Consent-phase input with a whitespace-only Participant ID edit. -/
def consentInputBlankEdit : Input := baseInput

/-- A session sitting in the rate phase of an image/sliders run, third
trial of three not yet submitted. -/
def rateStateSliders : SessionState where
  phase := .rate
  study_id := STUDY_ID
  mode := "img_sliders"
  consented := true
  consent_timestamp_iso := "2026-01-01T00:00:00Z"
  participant_id := "P1"
  name := "Ada"
  age := 30
  gender := "Female"
  nationality := "British"
  media_list := ["a.png", "b.png", "c.png"]
  idx := 2
  order := [2, 0, 1]
  total_trials := 3
  order_sequence := "2,0,1"
  show_started_at := some 10
  responses := []
  trial_submitted := false
  current_trial := some 2

/-- The same session in a text mode. -/
def rateStateText : SessionState :=
  { rateStateSliders with mode := "img_text" }

/-- A session sitting in the demographics phase. -/
def demoState : SessionState :=
  { initState "vid_text" with
      phase := .demographics
      consented := true
      participant_id := "P1" }

/-- A session sitting in the show phase with the exposure timer already
running. -/
def showState : SessionState :=
  { rateStateSliders with
      phase := .show
      idx := 0
      trial_submitted := false
      current_trial := none
      show_started_at := some 0 }

/-! ## Helper lemmas -/

/-- Setting position `i` of `l` trades the old entry for the new one in
every element count. -/
lemma count_set_getD (l : List Nat) (i : Nat) (h : i < l.length) (b x : Nat) :
    ((l.set i b).count x + (if l.getD i 0 = x then 1 else 0))
      = (l.count x + (if b = x then 1 else 0)) := by
  induction l generalizing i with
  | nil => simp at h
  | cons a t ih =>
    cases i with
    | zero =>
      simp only [List.set_cons_zero, List.count_cons, List.getD_cons_zero,
        beq_iff_eq]
      omega
    | succ n =>
      have hn : n < t.length := by simpa using h
      have := ih n hn
      simp only [List.set_cons_succ, List.count_cons, List.getD_cons_succ,
        beq_iff_eq]
      omega

/-- A bounded two-position swap is a permutation. -/
lemma listSwap_perm (l : List Nat) (i j : Nat) (hi : i < l.length)
    (hj : j < l.length) : List.Perm (listSwap l i j) l := by
  rw [List.perm_iff_count]
  intro x
  have h1 := count_set_getD l i hi (l.getD j 0) x
  have hj1 : j < (l.set i (l.getD j 0)).length := by simpa using hj
  have h2 := count_set_getD (l.set i (l.getD j 0)) j hj1 (l.getD i 0) x
  have hBj : (l.set i (l.getD j 0)).getD j 0 = l.getD j 0 := by
    by_cases hij : i = j
    · subst hij
      rw [List.getD_eq_getElem?_getD, List.getElem?_set_self hj, Option.getD_some]
    · rw [List.getD_eq_getElem?_getD, List.getElem?_set_ne hij,
        ← List.getD_eq_getElem?_getD]
  rw [hBj] at h2
  unfold listSwap
  omega

/-- Each Fisher–Yates pass permutes the list. -/
lemma shuffleStep_perm (rand : Nat → Nat) :
    ∀ (i : Nat) (l : List Nat), i < l.length → List.Perm (shuffleStep rand i l) l := by
  intro i
  induction i with
  | zero => intro l _; exact List.Perm.refl l
  | succ n ih =>
    intro l h
    have hj : rand (n + 1) % (n + 2) < l.length := by
      have := Nat.mod_lt (rand (n + 1)) (y := n + 2) (by omega)
      omega
    have hswap := listSwap_perm l (n + 1) (rand (n + 1) % (n + 2)) h hj
    have hlen : (listSwap l (n + 1) (rand (n + 1) % (n + 2))).length = l.length := by
      simp [listSwap]
    have hrec := ih (listSwap l (n + 1) (rand (n + 1) % (n + 2))) (by omega)
    simpa only [shuffleStep] using hrec.trans hswap

/-- `random.shuffle` permutes its argument. -/
lemma shuffle_perm (l : List Nat) (rand : Nat → Nat) : List.Perm (shuffle l rand) l := by
  cases l with
  | nil => exact List.Perm.refl _
  | cons a t =>
    unfold shuffle
    exact shuffleStep_perm rand _ _ (by simp)

/-- `randomize_order n` is a permutation of the identity order `[0, n)`. -/
lemma randomize_order_perm (n : Nat) (rand : Nat → Nat) :
    List.Perm (randomize_order n rand) (List.range n) :=
  shuffle_perm (List.range n) rand

lemma randomize_order_length (n : Nat) (rand : Nat → Nat) :
    (randomize_order n rand).length = n := by
  simpa using (randomize_order_perm n rand).length_eq

/-! Decimal printing and parsing lemmas for the order-sequence string. -/

lemma parseDigit_digitChar {d : Nat} (h : d < 10) :
    parseDigit (digitChar d) = d := by
  interval_cases d <;> decide

lemma digitChar_ne_comma (d : Nat) : digitChar d ≠ ',' := by
  unfold digitChar
  split <;> decide

lemma natStrChars_ne_nil (n : Nat) : natStrChars n ≠ [] := by
  unfold natStrChars
  split
  · simp
  · simpa using (Nat.digits_ne_nil_iff_ne_zero).mpr (by assumption)

lemma comma_not_mem_natStrChars (n : Nat) : ',' ∉ natStrChars n := by
  unfold natStrChars
  split
  · decide
  · intro hmem
    obtain ⟨d, _, hEq⟩ := List.mem_map.mp hmem
    exact digitChar_ne_comma d hEq

lemma foldl_parse_digits (ds : List Nat) (hds : ∀ d ∈ ds, d < 10) (a : Nat) :
    List.foldl (fun acc c => acc * 10 + parseDigit c) a (ds.reverse.map digitChar)
      = a * 10 ^ ds.length + Nat.ofDigits 10 ds := by
  induction ds generalizing a with
  | nil => simp [Nat.ofDigits]
  | cons d tl ih =>
    have hd : d < 10 := hds d (List.mem_cons_self d tl)
    have htl : ∀ x ∈ tl, x < 10 := fun x hx => hds x (List.mem_cons_of_mem d hx)
    simp only [List.reverse_cons, List.map_append, List.foldl_append,
      List.map_cons, List.map_nil, List.foldl_cons, List.foldl_nil]
    rw [ih htl, parseDigit_digitChar hd, Nat.ofDigits_cons, List.length_cons,
      pow_succ]
    ring

lemma parseNatChars_natStrChars (n : Nat) :
    parseNatChars (natStrChars n) = n := by
  unfold natStrChars parseNatChars
  by_cases h : n = 0
  · subst h; decide
  · rw [if_neg h]
    have hb : ∀ d ∈ Nat.digits 10 n, d < 10 := fun d hd =>
      Nat.digits_lt_base (by norm_num) hd
    have := foldl_parse_digits (Nat.digits 10 n) hb 0
    simpa [Nat.ofDigits_digits] using this

/-! Dispatch lemmas: one script run enters the branch of the current
phase. -/

lemma step_consent (ss : SessionState) (inp : Input) (h : ss.phase = .consent) :
    step ss inp = consentPhase ss inp.resetClicked inp.queryMode
      inp.selectedMode inp.uuidHex inp.agreed inp.pidInput
      inp.continueClicked inp.ts := by
  unfold step; rw [h]

lemma step_demographics (ss : SessionState) (inp : Input)
    (h : ss.phase = .demographics) :
    step ss inp = demographicsPhase ss inp.nameInput inp.ageInput
      inp.genderInput inp.nationalityInput inp.demoSubmit inp.mediaFiles
      inp.rand := by
  unfold step; rw [h]

lemma step_show (ss : SessionState) (inp : Input) (h : ss.phase = .show) :
    step ss inp = showPhase ss inp.t1 inp.t2 := by
  unfold step; rw [h]

lemma step_rate (ss : SessionState) (inp : Input) (h : ss.phase = .rate) :
    step ss inp = ratePhase ss inp.rateSubmit inp.sliders inp.result
      inp.textInput inp.ts := by
  unfold step; rw [h]

lemma step_done (ss : SessionState) (inp : Input) (h : ss.phase = .done) :
    step ss inp = (ss, []) := by
  unfold step; rw [h]

/-- When the demographics handler hands control to the show phase, the
plan it installed is the shuffled-and-truncated plan. -/
lemma demographicsPhase_show_order (ss : SessionState) (nI : String)
    (aI : Int) (gI natI : String) (sub : Bool) (media : List String)
    (rand : Nat → Nat) (hphase : ss.phase = .demographics)
    (h : (demographicsPhase ss nI aI gI natI sub media rand).1.phase = .show) :
    (demographicsPhase ss nI aI gI natI sub media rand).1.order
      = trial_plan media.length MAX_TRIALS rand := by
  unfold demographicsPhase at h ⊢
  dsimp only at h ⊢
  split_ifs at h ⊢ <;> simp_all [trial_plan]

/-! ## Claim theorems -/

/-- C9: encoding a trial plan as the comma-separated string of its
indices and then decoding that string yields the original ordered index
list. -/
theorem order_sequence_roundtrip (l : List Nat) :
    order_sequence_decode (order_sequence_encode l) = l := by
  unfold order_sequence_encode order_sequence_decode
  rcases eq_or_ne l [] with hl | hl
  · subst hl; decide
  · have hx : ∀ p ∈ l.map natStrChars, ',' ∉ p := by
      intro p hp
      obtain ⟨m, _, rfl⟩ := List.mem_map.mp hp
      exact comma_not_mem_natStrChars m
    have hls : l.map natStrChars ≠ [] := by
      simpa using hl
    have hsplit := List.splitOn_intercalate (l.map natStrChars) ',' hx hls
    have hne : List.intercalate [','] (l.map natStrChars) ≠ [] := by
      intro h0
      rw [h0] at hsplit
      rcases l with _ | ⟨a, t⟩
      · exact hl rfl
      · simp only [List.map_cons] at hsplit
        have : List.splitOn ',' ([] : List Char) = [[]] := by decide
        rw [this] at hsplit
        have := (List.cons.injEq _ _ _ _).mp hsplit.symm
        exact natStrChars_ne_nil a this.1
    rw [if_neg hne, hsplit, List.map_map]
    have : ∀ x ∈ l, (parseNatChars ∘ natStrChars) x = id x := fun x _ =>
      parseNatChars_natStrChars x
    rw [List.map_congr_left this, List.map_id]

/-- C8: the mode selector accepts an external mode string only when it
is one of the four allowed modes; an unrecognized or absent value falls
back to the default, so the result is always in the allowed set. -/
theorem get_mode_from_query_valid (q : Option String) :
    get_mode_from_query q ∈ ALL_MODES
      ∧ (∀ m, q = some m → m ∈ ALL_MODES → get_mode_from_query q = m)
      ∧ (∀ m, q = some m → m ∉ ALL_MODES → get_mode_from_query q = DEFAULT_MODE)
      ∧ (q = none → get_mode_from_query q = DEFAULT_MODE) := by
  have hdef : DEFAULT_MODE ∈ ALL_MODES := by decide
  refine ⟨?_, ?_, ?_, ?_⟩
  · show (if q.getD DEFAULT_MODE ∈ ALL_MODES then q.getD DEFAULT_MODE
      else DEFAULT_MODE) ∈ ALL_MODES
    split
    · assumption
    · exact hdef
  · rintro m rfl hm
    simp [get_mode_from_query, hm]
  · rintro m rfl hm
    simp [get_mode_from_query, Option.getD, hm]
  · rintro rfl
    simp [get_mode_from_query, Option.getD, hdef]

/-- Witness for C8 at concrete inputs: a recognized mode is kept, an
unrecognized one falls back to the default. -/
theorem get_mode_from_query_valid_witness :
    get_mode_from_query (some "vid_text") = "vid_text"
      ∧ get_mode_from_query (some "bogus") = DEFAULT_MODE := by
  constructor
  · exact (get_mode_from_query_valid (some "vid_text")).2.1 "vid_text" rfl
      (by decide)
  · exact (get_mode_from_query_valid (some "bogus")).2.2.1 "bogus" rfl
      (by decide)

/-- C3: for every catalog size `n ≥ 1` and cap `c`, the trial plan is
built by shuffling the identity permutation of `[0, n)` and truncating
to `min n c`; it has length `min n c`, its elements are pairwise
distinct, and each lies in `[0, n)`.  The demographics handler produces
exactly this plan (with cap `MAX_TRIALS`) whenever it transitions to the
show phase. -/
theorem trial_plan_spec (n c : Nat) (rand : Nat → Nat) (hn : 1 ≤ n) :
    (trial_plan n c rand).length = min n c
      ∧ (trial_plan n c rand).Nodup
      ∧ (∀ x ∈ trial_plan n c rand, x < n)
      ∧ List.Perm (randomize_order n rand) (List.range n)
      ∧ trial_plan n c rand = (randomize_order n rand).take (min n c)
      ∧ (∀ (ss : SessionState) (inp : Input), ss.phase = .demographics →
          (step ss inp).1.phase = .show →
          (step ss inp).1.order = trial_plan inp.mediaFiles.length MAX_TRIALS inp.rand) := by
  have hperm := randomize_order_perm n rand
  have hlen : (randomize_order n rand).length = n := by
    simpa using hperm.length_eq
  refine ⟨?_, ?_, ?_, hperm, rfl, ?_⟩
  · unfold trial_plan
    rw [List.length_take, hlen]
    omega
  · unfold trial_plan
    exact ((List.take_sublist _ _).nodup
      (hperm.nodup_iff.mpr (List.nodup_range n)))
  · intro x hx
    have hx2 : x ∈ randomize_order n rand :=
      List.take_subset _ _ hx
    have := hperm.mem_iff.mp hx2
    exact List.mem_range.mp this
  · intro ss inp hphase hshow
    rw [step_demographics ss inp hphase] at hshow ⊢
    exact demographicsPhase_show_order ss _ _ _ _ _ _ _ hphase hshow

/-- Witness for C3 at `n = 3`, `c = 30`. -/
theorem trial_plan_spec_witness :
    1 ≤ 3 ∧ (trial_plan 3 30 (fun _ => 0)).length = min 3 30 :=
  ⟨by norm_num, (trial_plan_spec 3 30 (fun _ => 0) (by norm_num)).1⟩

/-- A generated participant id is nonempty whenever the uuid hex string
is. -/
lemma generate_participant_id_ne_empty (hex : String) (h : hex ≠ "") :
    generate_participant_id hex ≠ "" := by
  cases hex with
  | mk cs =>
    cases cs with
    | nil => exact absurd rfl h
    | cons c tl =>
      unfold generate_participant_id
      intro hc
      have hlen := congrArg (fun s => s.data.length) hc
      simp [List.length_take] at hlen

/-- C10: on a successful consent submission, an empty or whitespace-only
edit of the Participant ID field keeps the previously stored (or freshly
generated) id, a nonblank edit replaces it with its trimmed value, and
either way the stored id is nonempty when control reaches demographics. -/
theorem consent_participant_id (ss : SessionState) (inp : Input)
    (hphase : ss.phase = .consent) (hreset : inp.resetClicked = false)
    (hcont : inp.continueClicked = true) (hagree : inp.agreed = true)
    (hhex : inp.uuidHex ≠ "") :
    (pyStrip inp.pidInput = "" → (step ss inp).1.participant_id =
        (if ss.participant_id = "" then generate_participant_id inp.uuidHex
         else ss.participant_id))
      ∧ (pyStrip inp.pidInput ≠ "" →
          (step ss inp).1.participant_id = pyStrip inp.pidInput)
      ∧ (step ss inp).1.participant_id ≠ ""
      ∧ (step ss inp).1.phase = .demographics := by
  rw [step_consent ss inp hphase]
  unfold consentPhase
  rw [hreset, hcont, hagree]
  simp only [Bool.false_eq_true, if_false, Bool.not_true]
  by_cases htrim : pyStrip inp.pidInput = "" <;>
    by_cases hpid : ss.participant_id = "" <;>
      simp_all [generate_participant_id_ne_empty inp.uuidHex hhex]

/-- Witness for C10: whitespace-only edit keeps the generated id. -/
theorem consent_participant_id_witness :
    (initState "img_sliders").phase = Phase.consent
      ∧ (pyStrip "  " = "" →
          (step (initState "img_sliders") consentInputBlankEdit).1.participant_id
            = generate_participant_id "0123456789abcdef0123456789abcdef") := by
  refine ⟨rfl, fun h => ?_⟩
  have hthm := consent_participant_id (initState "img_sliders")
    consentInputBlankEdit rfl rfl rfl rfl (by decide)
  have := hthm.1 (by decide)
  simpa using this

/-- C6: a demographics submission whose media catalog is empty fails
with a user-visible error, leaves the phase at demographics, and creates
no trial plan; a successful submission installs the plan, resets the
cursor to 0 and clears the exposure-start timestamp. -/
theorem demographics_empty_catalog_guard (ss : SessionState) (inp : Input)
    (hphase : ss.phase = .demographics) (hsub : inp.demoSubmit = true)
    (hname : pyStrip inp.nameInput ≠ "") (hgender : pyStrip inp.genderInput ≠ "")
    (hnat : pyStrip inp.nationalityInput ≠ "") (hage : inp.ageInput > 0) :
    (inp.mediaFiles = [] →
        (step ss inp).1.phase = .demographics
          ∧ (step ss inp).1.order = ss.order
          ∧ (step ss inp).1.total_trials = ss.total_trials
          ∧ (step ss inp).1.order_sequence = ss.order_sequence
          ∧ (step ss inp).2 = [.error_msg])
      ∧ (inp.mediaFiles ≠ [] →
        (step ss inp).1.phase = .show
          ∧ (step ss inp).1.order
              = trial_plan inp.mediaFiles.length MAX_TRIALS inp.rand
          ∧ (step ss inp).1.idx = 0
          ∧ (step ss inp).1.show_started_at = none) := by
  rw [step_demographics ss inp hphase]
  unfold demographicsPhase
  rw [hsub]
  simp only [Bool.not_true, Bool.false_eq_true, if_false]
  constructor
  · intro hmedia
    rw [if_pos ⟨hname, hgender, hnat, hage⟩, if_pos hmedia]
    exact ⟨hphase, rfl, rfl, rfl, rfl⟩
  · intro hmedia
    rw [if_pos ⟨hname, hgender, hnat, hage⟩, if_neg hmedia]
    exact ⟨rfl, rfl, rfl, rfl⟩

/-- Witness for C6: an empty video catalog in `vid_text` mode keeps the
phase at demographics; a three-item catalog advances to show. -/
theorem demographics_empty_catalog_guard_witness :
    (step demoState { baseInput with mediaFiles := [] }).1.phase
        = Phase.demographics
      ∧ (step demoState baseInput).1.phase = Phase.show := by
  constructor
  · exact ((demographics_empty_catalog_guard demoState
      { baseInput with mediaFiles := [] } rfl rfl (by decide) (by decide)
      (by decide) (by decide)).1 rfl).1
  · exact ((demographics_empty_catalog_guard demoState baseInput rfl rfl
      (by decide) (by decide) (by decide) (by decide)).2 (by decide)).1

/-! Projections of the rate-entry guard normalization. -/

@[simp] lemma rateEntry_phase (ss : SessionState) :
    (rateEntry ss).phase = ss.phase := by
  unfold rateEntry; split <;> rfl

@[simp] lemma rateEntry_idx (ss : SessionState) :
    (rateEntry ss).idx = ss.idx := by
  unfold rateEntry; split <;> rfl

@[simp] lemma rateEntry_mode (ss : SessionState) :
    (rateEntry ss).mode = ss.mode := by
  unfold rateEntry; split <;> rfl

@[simp] lemma rateEntry_responses (ss : SessionState) :
    (rateEntry ss).responses = ss.responses := by
  unfold rateEntry; split <;> rfl

@[simp] lemma rateEntry_order (ss : SessionState) :
    (rateEntry ss).order = ss.order := by
  unfold rateEntry; split <;> rfl

@[simp] lemma rateEntry_total_trials (ss : SessionState) :
    (rateEntry ss).total_trials = ss.total_trials := by
  unfold rateEntry; split <;> rfl

/-- When the rate handler hands control to the show phase (next trial),
the exposure-start timestamp has been cleared by `record_and_next`. -/
lemma ratePhase_to_show_clears_timer (ss : SessionState) (submitted : Bool)
    (sliders : Sliders) (result : Option String) (text ts : String)
    (hphase : ss.phase = .rate)
    (h : (ratePhase ss submitted sliders result text ts).1.phase = .show) :
    (ratePhase ss submitted sliders result text ts).1.show_started_at = none := by
  unfold ratePhase at h ⊢
  dsimp only at h ⊢
  rcases result with _ | r <;> dsimp only at h ⊢ <;>
    split_ifs at h ⊢ <;>
      first
        | rfl
        | simp_all

/-- C7 counterexample: from a show-phase state whose timer has expired,
the step moves to the rate phase but does *not* clear the
exposure-start timestamp — it is still the old reading, not `none`.
This falsifies the claim's "the start timestamp is cleared when leaving
Show" at a concrete input. -/
theorem show_timer_counterexample :
    showState.phase = Phase.show
      ∧ (step showState { baseInput with t2 := 5 }).1.phase = Phase.rate
      ∧ (step showState { baseInput with t2 := 5 }).1.show_started_at
          = some 0 := by
  have hrem : ¬(SHOW_SECONDS - ((5 : ℚ) - 0) > 0) := by
    norm_num [SHOW_SECONDS]
  refine ⟨rfl, ?_, ?_⟩
  · rw [step_show showState _ rfl]
    unfold showPhase
    rw [if_neg (by decide : ¬effTotal showState = 0)]
    dsimp only
    rw [if_neg (by decide : ¬showState.show_started_at = none)]
    rw [if_neg (by exact hrem)]
  · rw [step_show showState _ rfl]
    unfold showPhase
    rw [if_neg (by decide : ¬effTotal showState = 0)]
    dsimp only
    rw [if_neg (by decide : ¬showState.show_started_at = none)]
    rw [if_neg (by exact hrem)]
    rfl

/-- C7 as amended: on first entry the show phase records the
exposure-start timestamp; while the remaining time is positive the state
is unchanged (the same stimulus is re-rendered); once the remaining time
reaches zero or below the phase moves to rate — and because the moved-to
state is no longer in the show phase, the transition cannot fire again
for this trial.  The timestamp is not cleared at the Show→Rate
transition itself; it is cleared by the successful rate submission that
leaves the rate phase, so the next trial's show entry finds a cleared
timestamp and restarts its timer from zero. -/
theorem show_timer_amended (ss : SessionState) (inp : Input)
    (hphase : ss.phase = .show) (htotal : effTotal ss ≠ 0) :
    (ss.show_started_at = none →
        (step ss inp).1.show_started_at = some inp.t1)
      ∧ (ss.show_started_at = none → SHOW_SECONDS - (inp.t2 - inp.t1) > 0 →
          (step ss inp).1 = { ss with show_started_at := some inp.t1 })
      ∧ (∀ t, ss.show_started_at = some t → SHOW_SECONDS - (inp.t2 - t) > 0 →
          (step ss inp).1 = ss)
      ∧ (∀ t, ss.show_started_at = some t →
          ¬(SHOW_SECONDS - (inp.t2 - t) > 0) →
          (step ss inp).1 = { ss with phase := .rate })
      ∧ (ss.show_started_at = none →
          ¬(SHOW_SECONDS - (inp.t2 - inp.t1) > 0) →
          (step ss inp).1
            = { ss with show_started_at := some inp.t1, phase := .rate })
      ∧ (∀ (s2 : SessionState) (inp2 : Input), s2.phase = .rate →
          (step s2 inp2).1.phase = .show →
          (step s2 inp2).1.show_started_at = none) := by
  rw [step_show ss inp hphase]
  unfold showPhase
  rw [if_neg htotal]
  dsimp only
  refine ⟨?_, ?_, ?_, ?_, ?_, ?_⟩
  · intro hnone
    rw [if_pos hnone]
    dsimp only
    simp only [Option.getD_some]
    split <;> rfl
  · intro hnone hrem
    rw [if_pos hnone]
    dsimp only
    simp only [Option.getD_some]
    rw [if_pos hrem]
  · intro t ht hrem
    rw [if_neg (show ¬ss.show_started_at = none by simp [ht])]
    rw [ht]
    simp only [Option.getD_some]
    rw [if_pos hrem]
  · intro t ht hrem
    rw [if_neg (show ¬ss.show_started_at = none by simp [ht])]
    rw [ht]
    simp only [Option.getD_some]
    rw [if_neg hrem]
  · intro hnone hrem
    rw [if_pos hnone]
    dsimp only
    simp only [Option.getD_some]
    rw [if_neg hrem]
  · intro s2 inp2 hp2 hshow2
    rw [step_rate s2 inp2 hp2] at hshow2 ⊢
    exact ratePhase_to_show_clears_timer s2 _ _ _ _ _ hp2 hshow2

/-- Witness for the amended C7: with the timer unset, the first show
step stamps it; with an expired timer, the step fires into rate. -/
theorem show_timer_amended_witness :
    (step { showState with show_started_at := none }
        { baseInput with t1 := 3, t2 := 3 }).1.show_started_at = some 3
      ∧ (step showState { baseInput with t2 := 5 }).1
          = { showState with phase := Phase.rate } := by
  constructor
  · exact (show_timer_amended { showState with show_started_at := none }
      { baseInput with t1 := 3, t2 := 3 } rfl (by decide)).1 rfl
  · exact (show_timer_amended showState { baseInput with t2 := 5 } rfl
      (by decide)).2.2.2.1 0 rfl (by norm_num [SHOW_SECONDS])

/-! Projections of `record_and_next`. -/

@[simp] lemma record_and_next_idx (ss : SessionState) (extra : Extra)
    (ts : String) : (record_and_next ss extra ts).1.idx = ss.idx + 1 := rfl

@[simp] lemma record_and_next_order (ss : SessionState) (extra : Extra)
    (ts : String) : (record_and_next ss extra ts).1.order = ss.order := rfl

@[simp] lemma record_and_next_total (ss : SessionState) (extra : Extra)
    (ts : String) :
    (record_and_next ss extra ts).1.total_trials = ss.total_trials := rfl

@[simp] lemma record_and_next_responses (ss : SessionState) (extra : Extra)
    (ts : String) : (record_and_next ss extra ts).1.responses
      = ss.responses ++ [(record_and_next ss extra ts).2] := rfl

lemma record_and_next_phase (ss : SessionState) (extra : Extra)
    (ts : String) : (record_and_next ss extra ts).1.phase
      = if ss.idx + 1 ≥ effTotal ss then .done else .show := rfl

/-- C2: a second submission for the same trial cursor (guard flag set,
cursor not yet advanced) never appends a second record — neither to the
local response list nor to the sheet — and in every script run the guard
flag is set before any append is attempted (no append event precedes the
first `set_guard` event). -/
theorem submission_guard (ss : SessionState) (inp : Input) :
    (ss.phase = .rate → ss.current_trial = some ss.idx →
        ss.trial_submitted = true →
        (step ss inp).1.responses = ss.responses
          ∧ ((step ss inp).2.all fun e => !isAppend e) = true)
      ∧ guardFirst (step ss inp).2 = true := by
  constructor
  · intro h1 h2 h3
    rw [step_rate ss inp h1]
    unfold ratePhase
    dsimp only
    rw [show rateEntry ss = ss from by
      unfold rateEntry; rw [if_neg (by simp [h2])]]
    rcases hres : inp.result with _ | r <;> split_ifs <;>
      simp_all [isAppend]
  · cases hp : ss.phase
    · rw [step_consent ss inp hp]
      unfold consentPhase
      dsimp only
      split_ifs <;> rfl
    · rw [step_demographics ss inp hp]
      unfold demographicsPhase
      dsimp only
      split_ifs <;> rfl
    · rw [step_show ss inp hp]
      unfold showPhase
      dsimp only
      split_ifs <;> rfl
    · rw [step_rate ss inp hp]
      unfold ratePhase
      dsimp only
      rcases inp.result with _ | r <;> split_ifs <;> rfl
    · rw [step_done ss inp hp]
      rfl

/-- Witness for C2: with the guard already set for the current cursor, a
resubmission leaves the response list unchanged and attempts no
append. -/
theorem submission_guard_witness :
    (step { rateStateSliders with trial_submitted := true } baseInput).1.responses
        = ({ rateStateSliders with trial_submitted := true } : SessionState).responses
      ∧ ((step { rateStateSliders with trial_submitted := true } baseInput).2.all
          fun e => !isAppend e) = true :=
  (submission_guard { rateStateSliders with trial_submitted := true }
    baseInput).1 rfl rfl rfl

/-- C4: a valid slider submission appends a record whose eight rating
fields are exactly the submitted slider values and whose free-text field
is empty; a valid text submission appends a record whose eight rating
fields are all empty strings and whose free-text field is the trimmed
input. -/
theorem record_payload_fields (ss : SessionState) (inp : Input) :
    (ss.phase = .rate → mode_has_sliders ss.mode = true →
      inp.rateSubmit = true → (rateEntry ss).trial_submitted = false →
      ∀ r, inp.result = some r →
      ∃ row, (step ss inp).1.responses = ss.responses ++ [row]
        ∧ row.ratings.rating_angry = Cell.num inp.sliders.angry
        ∧ row.ratings.rating_happy = Cell.num inp.sliders.happy
        ∧ row.ratings.rating_sad = Cell.num inp.sliders.sad
        ∧ row.ratings.rating_scared = Cell.num inp.sliders.scared
        ∧ row.ratings.rating_surprised = Cell.num inp.sliders.surprised
        ∧ row.ratings.rating_neutral = Cell.num inp.sliders.neutral
        ∧ row.ratings.rating_disgusted = Cell.num inp.sliders.disgusted
        ∧ row.ratings.rating_contempt = Cell.num inp.sliders.contempt
        ∧ row.free_text = ""
        ∧ row.result_estimate = r)
    ∧ (ss.phase = .rate → mode_has_sliders ss.mode = false →
      inp.rateSubmit = true → (rateEntry ss).trial_submitted = false →
      ∀ r, inp.result = some r →
      MIN_TEXT_CHARS ≤ (pyStrip inp.textInput).length →
      ∃ row, (step ss inp).1.responses = ss.responses ++ [row]
        ∧ row.ratings.rating_angry = Cell.str ""
        ∧ row.ratings.rating_happy = Cell.str ""
        ∧ row.ratings.rating_sad = Cell.str ""
        ∧ row.ratings.rating_scared = Cell.str ""
        ∧ row.ratings.rating_surprised = Cell.str ""
        ∧ row.ratings.rating_neutral = Cell.str ""
        ∧ row.ratings.rating_disgusted = Cell.str ""
        ∧ row.ratings.rating_contempt = Cell.str ""
        ∧ row.free_text = pyStrip inp.textInput
        ∧ row.result_estimate = r) := by
  constructor
  · intro h1 hmode hsub hguard r hres
    rw [step_rate ss inp h1]
    unfold ratePhase
    dsimp only
    rw [rateEntry_mode, if_pos hmode, hsub]
    simp only [Bool.not_true]
    rw [if_neg (by simp), if_neg (by simp [hguard]), hres]
    dsimp only
    rw [← rateEntry_responses ss]
    exact ⟨_, rfl, rfl, rfl, rfl, rfl, rfl, rfl, rfl, rfl, rfl, rfl⟩
  · intro h1 hmode hsub hguard r hres hlen
    rw [step_rate ss inp h1]
    unfold ratePhase
    dsimp only
    rw [rateEntry_mode, if_neg (by simp [hmode]), hsub]
    simp only [Bool.not_true]
    rw [if_neg (by simp), if_neg (by simp [hguard]), hres]
    dsimp only
    rw [if_neg (by omega)]
    rw [← rateEntry_responses ss]
    exact ⟨_, rfl, rfl, rfl, rfl, rfl, rfl, rfl, rfl, rfl, rfl, rfl⟩

/-- Witness for C4: the slider record for concrete slider values
`1..8`, and the text record for the input `" calm "`. -/
theorem record_payload_fields_witness :
    (∃ row, (step rateStateSliders baseInput).1.responses
        = rateStateSliders.responses ++ [row]
      ∧ row.ratings.rating_angry = Cell.num baseInput.sliders.angry
      ∧ row.ratings.rating_happy = Cell.num baseInput.sliders.happy
      ∧ row.ratings.rating_sad = Cell.num baseInput.sliders.sad
      ∧ row.ratings.rating_scared = Cell.num baseInput.sliders.scared
      ∧ row.ratings.rating_surprised = Cell.num baseInput.sliders.surprised
      ∧ row.ratings.rating_neutral = Cell.num baseInput.sliders.neutral
      ∧ row.ratings.rating_disgusted = Cell.num baseInput.sliders.disgusted
      ∧ row.ratings.rating_contempt = Cell.num baseInput.sliders.contempt
      ∧ row.free_text = ""
      ∧ row.result_estimate = "Won")
    ∧ (∃ row, (step rateStateText baseInput).1.responses
        = rateStateText.responses ++ [row]
      ∧ row.ratings.rating_angry = Cell.str ""
      ∧ row.ratings.rating_happy = Cell.str ""
      ∧ row.ratings.rating_sad = Cell.str ""
      ∧ row.ratings.rating_scared = Cell.str ""
      ∧ row.ratings.rating_surprised = Cell.str ""
      ∧ row.ratings.rating_neutral = Cell.str ""
      ∧ row.ratings.rating_disgusted = Cell.str ""
      ∧ row.ratings.rating_contempt = Cell.str ""
      ∧ row.free_text = pyStrip baseInput.textInput
      ∧ row.result_estimate = "Won") :=
  ⟨(record_payload_fields rateStateSliders baseInput).1 rfl (by decide) rfl
      (by decide) "Won" rfl,
   (record_payload_fields rateStateText baseInput).2 rfl (by decide) rfl
      (by decide) "Won" rfl (by decide)⟩

/-- C5: a rate-phase submission that fails validation — missing outcome
judgment in either mode, or (in text mode) trimmed text shorter than the
configured minimum, including whitespace-only text with minimum 1 —
reports an error, stays in the rate phase, appends no record, and leaves
the guard flag unset. -/
theorem validation_failure_no_advance (ss : SessionState) (inp : Input)
    (h1 : ss.phase = .rate) (hsub : inp.rateSubmit = true)
    (hguard : (rateEntry ss).trial_submitted = false) :
    (inp.result = none →
        (step ss inp).1.phase = .rate
          ∧ (step ss inp).1.responses = ss.responses
          ∧ (step ss inp).1.trial_submitted = false
          ∧ (step ss inp).2 = [.error_msg])
      ∧ (mode_has_sliders ss.mode = false → ∀ r, inp.result = some r →
          (pyStrip inp.textInput).length < MIN_TEXT_CHARS →
          (step ss inp).1.phase = .rate
            ∧ (step ss inp).1.responses = ss.responses
            ∧ (step ss inp).1.trial_submitted = false
            ∧ (step ss inp).2 = [.error_msg]) := by
  rw [step_rate ss inp h1]
  unfold ratePhase
  dsimp only
  rw [hsub]
  simp only [Bool.not_true]
  constructor
  · intro hres
    rw [hres]
    by_cases hm : mode_has_sliders (rateEntry ss).mode = true <;>
      [rw [if_pos hm]; rw [if_neg hm]] <;>
      rw [if_neg (by simp), if_neg (by simp [hguard])] <;>
      exact ⟨by rw [rateEntry_phase, h1], by rw [rateEntry_responses],
        hguard, rfl⟩
  · intro hm r hres hlen
    rw [rateEntry_mode]
    rw [if_neg (by simp [hm]), if_neg (by simp), if_neg (by simp [hguard]),
      hres]
    dsimp only
    rw [if_pos hlen]
    exact ⟨by rw [rateEntry_phase, h1], by rw [rateEntry_responses],
      hguard, rfl⟩

/-- Witness for C5: the spec's scenario — text mode, minimum length 1,
whitespace-only input — is rejected in place. -/
theorem validation_failure_no_advance_witness :
    (step rateStateText { baseInput with textInput := "   " }).1.phase
        = Phase.rate
      ∧ (step rateStateText { baseInput with textInput := "   " }).1.responses
          = rateStateText.responses
      ∧ (step rateStateText
          { baseInput with textInput := "   " }).1.trial_submitted = false
      ∧ (step rateStateText { baseInput with textInput := "   " }).2
          = [Event.error_msg] :=
  (validation_failure_no_advance rateStateText
      { baseInput with textInput := "   " } rfl rfl (by decide)).2
    (by decide) "Won" rfl (by decide)

/-! Per-handler case analyses feeding the phase-flow theorem. -/

/-- The run invariant behind "the cursor never decreases": while the
session is still in the consent or demographics phase the cursor is 0
(it is 0 initially and demographics resets it before the first trial). -/
def PhaseIdxInv (ss : SessionState) : Prop :=
  (ss.phase = .consent ∨ ss.phase = .demographics) → ss.idx = 0

lemma consentPhase_phase_cases (ss : SessionState) (reset : Bool)
    (queryMode : Option String) (selectedMode uuidHex : String)
    (agreed : Bool) (pidInput : String) (continueClicked : Bool) (ts : String)
    (hphase : ss.phase = .consent) :
    (consentPhase ss reset queryMode selectedMode uuidHex agreed pidInput
        continueClicked ts).1.phase = .consent
      ∨ (consentPhase ss reset queryMode selectedMode uuidHex agreed pidInput
        continueClicked ts).1.phase = .demographics := by
  unfold consentPhase
  dsimp only
  split_ifs <;> simp [initState, hphase]

lemma consentPhase_idx_not_reset (ss : SessionState) (reset : Bool)
    (queryMode : Option String) (selectedMode uuidHex : String)
    (agreed : Bool) (pidInput : String) (continueClicked : Bool) (ts : String)
    (hreset : reset = false) :
    (consentPhase ss reset queryMode selectedMode uuidHex agreed pidInput
        continueClicked ts).1.idx = ss.idx := by
  unfold consentPhase
  rw [hreset, if_neg (by simp)]
  dsimp only
  split_ifs <;> rfl

lemma consentPhase_idx_reset (ss : SessionState) (reset : Bool)
    (queryMode : Option String) (selectedMode uuidHex : String)
    (agreed : Bool) (pidInput : String) (continueClicked : Bool) (ts : String)
    (hreset : reset = true) :
    (consentPhase ss reset queryMode selectedMode uuidHex agreed pidInput
        continueClicked ts).1.idx = 0 := by
  unfold consentPhase
  rw [hreset]
  rfl

lemma demographicsPhase_cases (ss : SessionState) (nI : String) (aI : Int)
    (gI natI : String) (sub : Bool) (media : List String) (rand : Nat → Nat)
    (hphase : ss.phase = .demographics) :
    ((demographicsPhase ss nI aI gI natI sub media rand).1.phase = .demographics
        ∧ (demographicsPhase ss nI aI gI natI sub media rand).1.idx = ss.idx)
      ∨ ((demographicsPhase ss nI aI gI natI sub media rand).1.phase = .show
        ∧ (demographicsPhase ss nI aI gI natI sub media rand).1.idx = 0
        ∧ (demographicsPhase ss nI aI gI natI sub media rand).1.total_trials
            = (demographicsPhase ss nI aI gI natI sub media rand).1.order.length) := by
  unfold demographicsPhase
  dsimp only
  split_ifs <;> first
    | exact Or.inl ⟨hphase, rfl⟩
    | (refine Or.inr ⟨rfl, rfl, ?_⟩
       simp only [List.length_take, randomize_order_length]
       omega)

lemma showPhase_cases (ss : SessionState) (t1 t2 : ℚ)
    (hphase : ss.phase = .show) :
    ((showPhase ss t1 t2).1.phase = .show ∨ (showPhase ss t1 t2).1.phase = .rate)
      ∧ (showPhase ss t1 t2).1.idx = ss.idx
      ∧ (showPhase ss t1 t2).1.order = ss.order
      ∧ (showPhase ss t1 t2).1.total_trials = ss.total_trials
      ∧ (showPhase ss t1 t2).1.responses = ss.responses := by
  unfold showPhase
  dsimp only
  split_ifs <;> first
    | exact ⟨Or.inl hphase, rfl, rfl, rfl, rfl⟩
    | exact ⟨Or.inr rfl, rfl, rfl, rfl, rfl⟩

lemma ratePhase_cases (ss : SessionState) (submitted : Bool)
    (sliders : Sliders) (result : Option String) (text ts : String)
    (hphase : ss.phase = .rate) :
    ((ratePhase ss submitted sliders result text ts).1.phase = .rate
        ∧ (ratePhase ss submitted sliders result text ts).1.idx = ss.idx
        ∧ (ratePhase ss submitted sliders result text ts).1.responses
            = ss.responses)
      ∨ ((ratePhase ss submitted sliders result text ts).1.idx = ss.idx + 1
        ∧ (ratePhase ss submitted sliders result text ts).1.order = ss.order
        ∧ (ratePhase ss submitted sliders result text ts).1.total_trials
            = ss.total_trials
        ∧ ((ratePhase ss submitted sliders result text ts).1.phase = .done
            ↔ effTotal ss ≤ ss.idx + 1)
        ∧ ((ratePhase ss submitted sliders result text ts).1.phase ≠ .done →
            (ratePhase ss submitted sliders result text ts).1.phase = .show)) := by
  have heff : effTotal { rateEntry ss with trial_submitted := true }
      = effTotal ss := by
    unfold effTotal
    by_cases h0 : ss.total_trials = 0 <;> simp [h0]
  unfold ratePhase
  dsimp only
  rcases result with _ | r <;> split_ifs <;>
    first
      | exact Or.inr ⟨by simp, by simp, by simp,
          (by
            simp only [record_and_next_phase]
            split_ifs with hc <;>
              (simp only [effTotal, ge_iff_le, rateEntry_total_trials,
                 rateEntry_order, rateEntry_idx] at hc ⊢
               simp [hc])),
          (by
            simp only [record_and_next_phase]
            split_ifs <;> simp)⟩
      | exact Or.inl ⟨by simp [hphase], by simp, by simp⟩

/-- C1: the step relation only admits the phase sequence
`Consent, Demographics, (Show, Rate)×k, Done` for a successful full run:
consent leads only to consent or demographics; demographics leads only
to demographics or (on success) to show with the cursor reset to 0 and
the stored trial total equal to the plan length; show leads only to show
or rate and never touches the cursor, plan or responses; a rate step
either stays in rate with the cursor and responses unchanged (failed or
absent submission) or — on a successful validated submission — advances
the cursor by exactly one and moves to done if and only if the cursor
reaches the plan total, otherwise back to show; done is terminal.  The
cursor-0 invariant for the consent/demographics phases is preserved by
every step, and under it the cursor never decreases except on the
explicit reset from the consent screen. -/
theorem phase_flow (ss : SessionState) (inp : Input) :
    (ss.phase = .consent →
        (step ss inp).1.phase = .consent
          ∨ (step ss inp).1.phase = .demographics)
      ∧ (ss.phase = .demographics →
        ((step ss inp).1.phase = .demographics
            ∧ (step ss inp).1.idx = ss.idx)
          ∨ ((step ss inp).1.phase = .show ∧ (step ss inp).1.idx = 0
            ∧ (step ss inp).1.total_trials = (step ss inp).1.order.length))
      ∧ (ss.phase = .show →
        ((step ss inp).1.phase = .show ∨ (step ss inp).1.phase = .rate)
          ∧ (step ss inp).1.idx = ss.idx
          ∧ (step ss inp).1.order = ss.order
          ∧ (step ss inp).1.total_trials = ss.total_trials
          ∧ (step ss inp).1.responses = ss.responses)
      ∧ (ss.phase = .rate →
        ((step ss inp).1.phase = .rate ∧ (step ss inp).1.idx = ss.idx
            ∧ (step ss inp).1.responses = ss.responses)
          ∨ ((step ss inp).1.idx = ss.idx + 1
            ∧ (step ss inp).1.order = ss.order
            ∧ (step ss inp).1.total_trials = ss.total_trials
            ∧ ((step ss inp).1.phase = .done ↔ effTotal ss ≤ ss.idx + 1)
            ∧ (ss.total_trials = ss.order.length →
                ((step ss inp).1.phase = .done ↔
                  ss.order.length ≤ ss.idx + 1))
            ∧ ((step ss inp).1.phase ≠ .done →
                (step ss inp).1.phase = .show)))
      ∧ (ss.phase = .done → (step ss inp).1 = ss)
      ∧ (∀ m, PhaseIdxInv (initState m))
      ∧ (PhaseIdxInv ss → PhaseIdxInv (step ss inp).1)
      ∧ (PhaseIdxInv ss → ¬(ss.phase = .consent ∧ inp.resetClicked = true) →
          ss.idx ≤ (step ss inp).1.idx) := by
  have hconsent := fun h => consentPhase_phase_cases ss inp.resetClicked
    inp.queryMode inp.selectedMode inp.uuidHex inp.agreed inp.pidInput
    inp.continueClicked inp.ts h
  have hdemo := fun h => demographicsPhase_cases ss inp.nameInput inp.ageInput
    inp.genderInput inp.nationalityInput inp.demoSubmit inp.mediaFiles
    inp.rand h
  have hshow := fun h => showPhase_cases ss inp.t1 inp.t2 h
  have hrate := fun h => ratePhase_cases ss inp.rateSubmit inp.sliders
    inp.result inp.textInput inp.ts h
  refine ⟨?_, ?_, ?_, ?_, ?_, ?_, ?_, ?_⟩
  · intro h
    rw [step_consent ss inp h]
    exact hconsent h
  · intro h
    rw [step_demographics ss inp h]
    exact hdemo h
  · intro h
    rw [step_show ss inp h]
    exact hshow h
  · intro h
    rw [step_rate ss inp h]
    rcases hrate h with hl | hr
    · exact Or.inl hl
    · refine Or.inr ⟨hr.1, hr.2.1, hr.2.2.1, hr.2.2.2.1, ?_, hr.2.2.2.2⟩
      intro htot
      rw [hr.2.2.2.1]
      unfold effTotal
      split_ifs with h0 <;> omega
  · intro h
    rw [step_done ss inp h]
  · intro m
    intro _
    rfl
  · intro hinv
    cases hp : ss.phase
    · rw [step_consent ss inp hp]
      intro hc
      by_cases hr : inp.resetClicked = true
      · rw [consentPhase_idx_reset ss _ _ _ _ _ _ _ _ hr]
      · rw [consentPhase_idx_not_reset ss _ _ _ _ _ _ _ _
          (Bool.not_eq_true _ ▸ hr)]
        exact hinv (Or.inl hp)
    · rw [step_demographics ss inp hp]
      rcases hdemo hp with ⟨hph, hidx⟩ | ⟨hph, _, _⟩
      · intro _
        rw [hidx]
        exact hinv (Or.inr hp)
      · intro hc
        rcases hc with hc | hc <;> rw [hph] at hc <;> exact absurd hc (by decide)
    · rw [step_show ss inp hp]
      rcases hshow hp with ⟨hph, _, _, _, _⟩
      intro hc
      rcases hph with hph | hph <;> rcases hc with hc | hc <;>
        rw [hph] at hc <;> exact absurd hc (by decide)
    · rw [step_rate ss inp hp]
      rcases hrate hp with ⟨hph, _, _⟩ | ⟨_, _, _, hiff, hns⟩
      · intro hc
        rcases hc with hc | hc <;> rw [hph] at hc <;> exact absurd hc (by decide)
      · intro hc
        by_cases hd : (ratePhase ss inp.rateSubmit inp.sliders inp.result
            inp.textInput inp.ts).1.phase = .done
        · rcases hc with hc | hc <;> rw [hd] at hc <;> exact absurd hc (by decide)
        · have := hns hd
          rcases hc with hc | hc <;> rw [this] at hc <;>
            exact absurd hc (by decide)
    · rw [step_done ss inp hp]
      intro hc
      exact hinv (hp ▸ hc)
  · intro hinv hnr
    cases hp : ss.phase
    · have hr : inp.resetClicked = false := by
        rcases Bool.eq_false_or_eq_true inp.resetClicked with h | h
        · exact absurd ⟨hp, h⟩ hnr
        · exact h
      rw [step_consent ss inp hp,
        consentPhase_idx_not_reset ss _ _ _ _ _ _ _ _ hr]
    · rw [step_demographics ss inp hp]
      rcases hdemo hp with ⟨_, hidx⟩ | ⟨_, hidx, _⟩ <;> rw [hidx]
      rw [hinv (Or.inr hp)]
    · rw [step_show ss inp hp]
      rw [(hshow hp).2.1]
    · rw [step_rate ss inp hp]
      rcases hrate hp with ⟨_, hidx, _⟩ | ⟨hidx, _⟩ <;> rw [hidx] <;> omega
    · rw [step_done ss inp hp]

/-- Witness for C1 at a concrete rate-phase success: the third and last
trial advances the cursor to 3 and ends the session. -/
theorem phase_flow_witness :
    (step rateStateSliders baseInput).1.idx = rateStateSliders.idx + 1
      ∧ (step rateStateSliders baseInput).1.phase = Phase.done := by
  have h := (phase_flow rateStateSliders baseInput).2.2.2.1 rfl
  rcases h with ⟨hph, _, _⟩ | ⟨hidx, _, _, hiff, _, _⟩
  · exact absurd hph (by decide)
  · exact ⟨hidx, hiff.mpr (by decide)⟩

end SurveyApp
